import Mathlib

/-!
Shallow embedding of the data-aggregation pipeline of `src/map.js` from the
bikewatching repository: station traffic aggregation (`computeStationTraffic`),
time-of-day trip filtering (`filterTripsByTime` with `minutesSinceMidnight`),
the quantized departure-ratio scale (`stationFlow`, a `d3.scaleQuantize`), and
the square-root radius scale configured inside `updateScatterPlot`.

JavaScript numbers appearing in the pipeline are modelled exactly where the
values are exact (trip counts and minute arithmetic are small integers, so
`Nat`/`Int` are faithful); the special values `NaN`/`Infinity` produced by
`0/0` style divisions are modelled by an explicit `JsNum` type, and the
`undefined` value (absent `Map` entry, `d3.max` of an empty array, the
`unknown` output of a quantize scale) by `Option`.
-/

/-- A bike station record as found in the stations JSON
(`jsonData.data.stations`): identified by its `short_name` code, with
longitude and latitude. -/
structure Station where
  short_name : String
  lon : ℚ
  lat : ℚ
  deriving DecidableEq, Repr

/-- The slice of a JavaScript `Date` that `minutesSinceMidnight` reads:
the `getHours()` and `getMinutes()` components of the parsed timestamp. -/
structure JsDate where
  hours : ℕ
  minutes : ℕ
  deriving DecidableEq, Repr

/-- A trip record from the traffic CSV, with `started_at` / `ended_at`
already parsed into date values (as done in the `d3.csv` row converter). -/
structure Trip where
  start_station_id : String
  end_station_id : String
  started_at : JsDate
  ended_at : JsDate
  deriving DecidableEq, Repr

/-- Embedding of `minutesSinceMidnight(date)` (src/map.js lines 68-70):
`date.getHours() * 60 + date.getMinutes()`. -/
def minutesSinceMidnight (date : JsDate) : ℕ :=
  date.hours * 60 + date.minutes

/-- Model of `d3.rollup(trips, v => v.length, key).get(id)`: the rollup map
has an entry for `id` exactly when some trip has key `id` (groups are
nonempty), its value being the number of such trips; `Map.get` of an absent
key is `undefined`, modelled as `none`. -/
def rollupCountGet (trips : List Trip) (key : Trip → String) (id : String) : Option ℕ :=
  let n := (trips.filter (fun t => key t == id)).length
  if n = 0 then none else some n

/-- A station together with the derived traffic fields that
`computeStationTraffic` attaches to a fresh shallow copy of the station
object (`{ ...st, arrivals, departures, totalTraffic }`): the `station`
field holds the copied base fields of the input station. -/
structure StationTraffic where
  station : Station
  arrivals : ℕ
  departures : ℕ
  totalTraffic : ℕ
  deriving DecidableEq, Repr

/-- Embedding of `computeStationTraffic(stations, trips)` (src/map.js lines
41-63): two rollup tables keyed by `start_station_id` (departures) and
`end_station_id` (arrivals); each input station is mapped, in order, to a
fresh record carrying its base fields plus `arrivals.get(id) ?? 0`,
`departures.get(id) ?? 0` and their sum. -/
def computeStationTraffic (stations : List Station) (trips : List Trip) :
    List StationTraffic :=
  stations.map (fun st =>
    let id := st.short_name
    { station := st
      arrivals := (rollupCountGet trips (fun d => d.end_station_id) id).getD 0
      departures := (rollupCountGet trips (fun d => d.start_station_id) id).getD 0
      totalTraffic := (rollupCountGet trips (fun d => d.end_station_id) id).getD 0
        + (rollupCountGet trips (fun d => d.start_station_id) id).getD 0 })

/-- The predicate of the `trips.filter` callback in `filterTripsByTime`
(src/map.js lines 78-86): `Math.abs(startM - timeFilter) <= 60 ||
Math.abs(endM - timeFilter) <= 60`, on wall-clock minutes with no
wraparound across midnight. -/
def tripInWindow (timeFilter : ℤ) (trip : Trip) : Bool :=
  let startM : ℤ := minutesSinceMidnight trip.started_at
  let endM : ℤ := minutesSinceMidnight trip.ended_at
  decide ((startM - timeFilter).natAbs ≤ 60) || decide ((endM - timeFilter).natAbs ≤ 60)

/-- Embedding of `filterTripsByTime(trips, timeFilter)` (src/map.js lines
75-87): the sentinel `-1` returns the input list itself, otherwise
`trips.filter` with the one-hour window predicate. -/
def filterTripsByTime (trips : List Trip) (timeFilter : ℤ) : List Trip :=
  if timeFilter = -1 then trips
  else trips.filter (tripInWindow timeFilter)

/-- A JavaScript number that may be one of the non-finite floating values:
needed because `departures / totalTraffic` divides 0 by 0 for a
zero-traffic station. -/
inductive JsNum where
  | nan : JsNum
  | posInf : JsNum
  | negInf : JsNum
  | num : ℚ → JsNum
  deriving DecidableEq, Repr

/-- JavaScript division: `0 / 0` is `NaN`, `a / 0` for nonzero `a` is a
signed infinity, otherwise ordinary division. -/
def jsDiv (a b : ℚ) : JsNum :=
  if b = 0 then
    if a = 0 then JsNum.nan
    else if 0 < a then JsNum.posInf else JsNum.negInf
  else JsNum.num (a / b)

/-- Embedding of `stationFlow = d3.scaleQuantize().domain([0, 1]).range([0,
0.5, 1])` (src/map.js line 89). d3-scale computes thresholds 1/3 and 2/3 and
evaluates `x != null && x <= x ? range[bisect(thresholds, x, 0, 2)] :
unknown`; `NaN` fails the `x <= x` guard and yields the scale's unknown
value, `undefined` (`none`), while any finite input is clamped into one of
the three buckets (infinities compare beyond both thresholds). -/
def stationFlow (x : JsNum) : Option ℚ :=
  match x with
  | JsNum.nan => none
  | JsNum.negInf => some 0
  | JsNum.posInf => some 1
  | JsNum.num q => some (if q < 1/3 then 0 else if q < 2/3 then 1/2 else 1)

/-- The value bound to the `--departure-ratio` style of a circle in
`updateScatterPlot` (src/map.js lines 206-208):
`stationFlow(d.departures / d.totalTraffic)`. A `none` result models
`undefined`, which d3-selection treats by removing the style property
instead of setting it. -/
def departureRatioStyle (st : StationTraffic) : Option ℚ :=
  stationFlow (jsDiv (st.departures : ℚ) (st.totalTraffic : ℚ))

/-- Model of `d3.max(filteredStations, d => d.totalTraffic)` (src/map.js
line 191): `undefined` (`none`) on an empty array, otherwise the maximum of
the `totalTraffic` values. -/
def maxTotalTraffic (stations : List StationTraffic) : Option ℕ :=
  (stations.map StationTraffic.totalTraffic).max?

/-- Embedding of `d3.scaleSqrt().domain([d0, d1]).range([r0, r1])` applied
to `t`: a power scale with exponent 1/2, which transforms the input by
square root and interpolates linearly between the range endpoints. -/
noncomputable def scaleSqrt (d0 d1 r0 r1 t : ℝ) : ℝ :=
  r0 + (Real.sqrt t - Real.sqrt d0) / (Real.sqrt d1 - Real.sqrt d0) * (r1 - r0)

/-- The radius scale as reconfigured on every `updateScatterPlot(timeFilter)`
call (src/map.js lines 190-192): domain `[0, maxTraffic]`, range `[0, 20]`
when `timeFilter` is the sentinel `-1`, `[2, 25]` otherwise. -/
noncomputable def radiusScaleFor (timeFilter : ℤ) (maxTraffic : ℝ) : ℝ → ℝ :=
  scaleSqrt 0 maxTraffic (if timeFilter = -1 then 0 else 2)
    (if timeFilter = -1 then 20 else 25)

/-- The radius function used by `updateScatterPlot(timeFilter)` (src/map.js
lines 185-211): trips are filtered by time, aggregated over the full station
list, and the scale domain upper bound is `d3.max` of the resulting
`totalTraffic` values. When the station list is empty `d3.max` is
`undefined` and the scale degenerates to `NaN` output, modelled as `none`. -/
noncomputable def updateScatterPlotRadius (stations : List Station)
    (trips : List Trip) (timeFilter : ℤ) (t : ℝ) : Option ℝ :=
  let filteredTrips := filterTripsByTime trips timeFilter
  let filteredStations := computeStationTraffic stations filteredTrips
  (maxTotalTraffic filteredStations).map
    (fun m : ℕ => radiusScaleFor timeFilter (m : ℝ) t)

/-! Concrete sample data used by the witness theorems. -/

/-- A sample station with code `A`. -/
def stA : Station := { short_name := "A", lon := -71, lat := 42 }

/-- A sample station with code `B`. -/
def stB : Station := { short_name := "B", lon := -70, lat := 42 }

/-- A sample station with code `Z` that no trip touches. -/
def stZ : Station := { short_name := "Z", lon := 0, lat := 0 }

/-- A sample trip from station `A` to itself, starting at minute 700 (11:40)
and ending at minute 710 (11:50). -/
def tripAA : Trip :=
  { start_station_id := "A", end_station_id := "A"
    started_at := { hours := 11, minutes := 40 }
    ended_at := { hours := 11, minutes := 50 } }

/-- A sample trip near midnight, starting at minute 1420 (23:40) and ending
at minute 1430 (23:50). -/
def tripNight : Trip :=
  { start_station_id := "A", end_station_id := "B"
    started_at := { hours := 23, minutes := 40 }
    ended_at := { hours := 23, minutes := 50 } }

/-- A sample trip between two station ids that appear in no station list. -/
def tripXY : Trip :=
  { start_station_id := "X", end_station_id := "Y"
    started_at := { hours := 8, minutes := 0 }
    ended_at := { hours := 8, minutes := 30 } }

/-- A zero-traffic aggregated station, as produced by `computeStationTraffic`
for a station touched by no trip. -/
def stZ0 : StationTraffic :=
  { station := stZ, arrivals := 0, departures := 0, totalTraffic := 0 }

/-- Helper: projecting the copied base station fields out of the aggregation
output recovers the input station list. -/
theorem computeStationTraffic_map_station_eq (S : List Station) (T : List Trip) :
    (computeStationTraffic S T).map StationTraffic.station = S := by
  unfold computeStationTraffic
  rw [List.map_map]
  exact List.map_id S

/-- C1: for every station list S and trip list T, `computeStationTraffic S T`
has the same length as S, preserves the order and full set of stations
(zero-traffic stations included), and every output station satisfies
`totalTraffic = arrivals + departures`. -/
theorem computeStationTraffic_preserves_stations_and_total
    (S : List Station) (T : List Trip) :
    (computeStationTraffic S T).length = S.length ∧
    (computeStationTraffic S T).map StationTraffic.station = S ∧
    ∀ o ∈ computeStationTraffic S T, o.totalTraffic = o.arrivals + o.departures := by
  refine ⟨?_, computeStationTraffic_map_station_eq S T, ?_⟩
  · simp [computeStationTraffic]
  · intro o ho
    simp only [computeStationTraffic, List.mem_map] at ho
    obtain ⟨st, _, rfl⟩ := ho
    rfl

/-- Witness for C1 at a concrete station list and trip list. -/
theorem computeStationTraffic_preserves_stations_and_total_witness :
    (computeStationTraffic [stA, stB] [tripAA]).length =
      ([stA, stB] : List Station).length ∧
    (computeStationTraffic [stA, stB] [tripAA]).map StationTraffic.station =
      [stA, stB] ∧
    ∀ o ∈ computeStationTraffic [stA, stB] [tripAA],
      o.totalTraffic = o.arrivals + o.departures :=
  computeStationTraffic_preserves_stations_and_total [stA, stB] [tripAA]

/-- C5: filtering with the sentinel value `-1` returns the input trip list
itself (in the source, `return trips` returns the very same array reference). -/
theorem filterTripsByTime_sentinel_identity (T : List Trip) :
    filterTripsByTime T (-1) = T := by
  simp [filterTripsByTime]

/-- C7: the aggregation never touches the input stations: each output record
is a fresh copy whose base station fields are exactly the corresponding
input station, so projecting the base fields recovers the input list
unchanged (in the source, `stations.map(st => ({ ...st, ... }))` builds new
objects and writes to none of the inputs). -/
theorem computeStationTraffic_fresh_copies (S : List Station) (T : List Trip) :
    (computeStationTraffic S T).map StationTraffic.station = S :=
  computeStationTraffic_map_station_eq S T

/-- C8: aggregating with an empty trip list yields every station of S with
all three traffic fields zero. -/
theorem computeStationTraffic_empty_trips (S : List Station) :
    (computeStationTraffic S []).map StationTraffic.station = S ∧
    ∀ o ∈ computeStationTraffic S [],
      o.arrivals = 0 ∧ o.departures = 0 ∧ o.totalTraffic = 0 := by
  refine ⟨computeStationTraffic_map_station_eq S [], ?_⟩
  · intro o ho
    simp only [computeStationTraffic, List.mem_map] at ho
    obtain ⟨st, _, rfl⟩ := ho
    simp [rollupCountGet]

/-- Witness for C8 at a concrete station list. -/
theorem computeStationTraffic_empty_trips_witness :
    (computeStationTraffic [stA, stB] []).map StationTraffic.station =
      [stA, stB] ∧
    ∀ o ∈ computeStationTraffic [stA, stB] [],
      o.arrivals = 0 ∧ o.departures = 0 ∧ o.totalTraffic = 0 :=
  computeStationTraffic_empty_trips [stA, stB]

/-- C9: for a non-sentinel filter value, the filtered trips form a sublist
of the input: every returned trip occurs in T unmodified, none is
duplicated, and the relative order of T is preserved. -/
theorem filterTripsByTime_sublist (T : List Trip) (m : ℤ) (hm : m ≠ -1) :
    (filterTripsByTime T m).Sublist T := by
  simp only [filterTripsByTime, if_neg hm]
  exact List.filter_sublist T

/-- Witness for C9 at a concrete trip list and filter value. -/
theorem filterTripsByTime_sublist_witness :
    (filterTripsByTime [tripAA] 650).Sublist [tripAA] :=
  filterTripsByTime_sublist [tripAA] 650 (by decide)

/-- C10: filtering is idempotent, for the sentinel and for every other
filter value alike. -/
theorem filterTripsByTime_idempotent (T : List Trip) (m : ℤ) :
    filterTripsByTime (filterTripsByTime T m) m = filterTripsByTime T m := by
  by_cases hm : m = -1
  · simp [filterTripsByTime, hm]
  · simp only [filterTripsByTime, if_neg hm, List.filter_filter]
    simp

/-- C2: for a non-sentinel filter value m, a trip is in the filtered list
exactly when it is in the input and its start-minute or end-minute differs
from m by at most 60 (inclusive), with plain absolute-difference arithmetic
and no wraparound across midnight. -/
theorem filterTripsByTime_membership (T : List Trip) (m : ℤ) (hm : m ≠ -1)
    (trip : Trip) :
    trip ∈ filterTripsByTime T m ↔
      trip ∈ T ∧
        (((minutesSinceMidnight trip.started_at : ℤ) - m).natAbs ≤ 60 ∨
          ((minutesSinceMidnight trip.ended_at : ℤ) - m).natAbs ≤ 60) := by
  simp [filterTripsByTime, if_neg hm, List.mem_filter, tripInWindow]

/-- Witness for C2: the trip starting at minute 700 is kept for filter
values 650 and 760 and dropped for 400, and a filter at minute 5 does not
match the trip ending at minute 1430. -/
theorem filterTripsByTime_membership_witness :
    tripAA ∈ filterTripsByTime [tripAA] 650 ∧
    tripAA ∈ filterTripsByTime [tripAA] 760 ∧
    tripAA ∉ filterTripsByTime [tripAA] 400 ∧
    tripNight ∉ filterTripsByTime [tripNight] 5 := by
  refine ⟨?_, ?_, ?_, ?_⟩
  · exact (filterTripsByTime_membership [tripAA] 650 (by decide) tripAA).mpr
      (by decide)
  · exact (filterTripsByTime_membership [tripAA] 760 (by decide) tripAA).mpr
      (by decide)
  · intro hmem
    have h := (filterTripsByTime_membership [tripAA] 400 (by decide) tripAA).mp hmem
    exact absurd h.2 (by decide)
  · intro hmem
    have h := (filterTripsByTime_membership [tripNight] 5 (by decide) tripNight).mp hmem
    exact absurd h.2 (by decide)

/-- Helper: a trip whose key does not match `id` does not change the rollup
count for `id`, wherever it sits in the trip list. -/
theorem rollupCountGet_skip (T1 T2 : List Trip) (t : Trip) (key : Trip → String)
    (id : String) (h : key t ≠ id) :
    rollupCountGet (T1 ++ t :: T2) key id = rollupCountGet (T1 ++ T2) key id := by
  simp [rollupCountGet, List.filter_append, List.filter_cons, h]

/-- C6: a trip whose start and end station ids match no station of S causes
no failure, contributes to no station's counts (removing it from the trip
list leaves the aggregation unchanged), and creates no phantom station
entry (the output stations are exactly S). -/
theorem computeStationTraffic_unknown_station_trip (S : List Station)
    (T1 T2 : List Trip) (t : Trip)
    (hstart : ∀ st ∈ S, st.short_name ≠ t.start_station_id)
    (hend : ∀ st ∈ S, st.short_name ≠ t.end_station_id) :
    computeStationTraffic S (T1 ++ t :: T2) = computeStationTraffic S (T1 ++ T2) ∧
    (computeStationTraffic S (T1 ++ t :: T2)).map StationTraffic.station = S := by
  refine ⟨?_, computeStationTraffic_map_station_eq S (T1 ++ t :: T2)⟩
  unfold computeStationTraffic
  refine List.map_congr_left ?_
  intro st hst
  simp only [rollupCountGet_skip T1 T2 t (fun d => d.end_station_id) st.short_name
      (Ne.symm (hend st hst)),
    rollupCountGet_skip T1 T2 t (fun d => d.start_station_id) st.short_name
      (Ne.symm (hstart st hst))]

/-- Witness for C6: the trip between the unknown ids X and Y contributes
nothing when aggregating over stations A and B. -/
theorem computeStationTraffic_unknown_station_trip_witness :
    computeStationTraffic [stA, stB] ([] ++ tripXY :: [tripAA]) =
      computeStationTraffic [stA, stB] ([] ++ [tripAA]) ∧
    (computeStationTraffic [stA, stB] ([] ++ tripXY :: [tripAA])).map
      StationTraffic.station = [stA, stB] :=
  computeStationTraffic_unknown_station_trip [stA, stB] [] [tripAA] tripXY
    (by decide) (by decide)

/-- C3 counterexample: for the zero-traffic station produced by aggregating
station Z against no trips, the `--departure-ratio` styling value is `none`
(JavaScript `undefined`: `0 / 0` is `NaN` and the quantize scale returns its
unknown value on `NaN`), which is not one of the buckets 0, 0.5, 1. -/
theorem departureRatio_zeroTraffic_counterexample :
    (computeStationTraffic [stZ] []).map departureRatioStyle = [none] ∧
    ¬ ((none : Option ℚ) = some 0 ∨ (none : Option ℚ) = some (1/2) ∨
        (none : Option ℚ) = some 1) := by
  refine ⟨by decide, by decide⟩

/-- C3 amended: for every zero-traffic station the styling computation is
total (nothing throws), but the ratio `0 / 0` is `NaN` and `stationFlow`
maps it to `undefined` (`none`), upon which d3 removes the
`--departure-ratio` style property; the value is never a bucket in
the set of values 0, 0.5, 1. -/
theorem departureRatioStyle_zeroTraffic_undefined (st : StationTraffic)
    (hdep : st.departures = 0) (htot : st.totalTraffic = 0) :
    departureRatioStyle st = none := by
  simp [departureRatioStyle, hdep, htot, jsDiv, stationFlow]

/-- Witness for the amended C3 at the concrete zero-traffic station. -/
theorem departureRatioStyle_zeroTraffic_undefined_witness :
    departureRatioStyle stZ0 = none :=
  departureRatioStyle_zeroTraffic_undefined stZ0 rfl rfl

/-- Helper: a square-root scale with domain starting at 0 maps 0 to the low
end of its range. -/
theorem scaleSqrt_domain_left (d1 r0 r1 : ℝ) : scaleSqrt 0 d1 r0 r1 0 = r0 := by
  simp [scaleSqrt]

/-- Helper: a square-root scale with domain `[0, d1]`, `d1 > 0`, maps `d1`
to the high end of its range. -/
theorem scaleSqrt_domain_right (d1 r0 r1 : ℝ) (h : 0 < d1) :
    scaleSqrt 0 d1 r0 r1 d1 = r1 := by
  have hs : Real.sqrt d1 ≠ 0 := ne_of_gt (Real.sqrt_pos.mpr h)
  unfold scaleSqrt
  rw [Real.sqrt_zero, sub_zero, div_self hs]
  ring

/-- C4: the radius scale used on every `updateScatterPlot` call has domain
`[0, M]` where M is `d3.max` of the totalTraffic values of the post-filter
aggregate set (recomputed from the current filter), and range `[0, 20]` for
the sentinel filter, `[2, 25]` otherwise: it maps 0 to the low end (0
unfiltered, 2 filtered) and M to the high end (20 unfiltered, 25 filtered). -/
theorem updateScatterPlotRadius_domain_range (S : List Station) (T : List Trip)
    (m : ℤ) (M : ℕ)
    (hmax : maxTotalTraffic (computeStationTraffic S (filterTripsByTime T m)) =
      some M)
    (hM : 0 < M) :
    updateScatterPlotRadius S T m 0 = some (if m = -1 then (0:ℝ) else 2) ∧
    updateScatterPlotRadius S T m M = some (if m = -1 then (20:ℝ) else 25) := by
  have hMr : (0:ℝ) < (M:ℝ) := by exact_mod_cast hM
  have key : ∀ t : ℝ, updateScatterPlotRadius S T m t =
      (maxTotalTraffic (computeStationTraffic S (filterTripsByTime T m))).map
        (fun n : ℕ => radiusScaleFor m (n : ℝ) t) := by
    intro t
    simp only [updateScatterPlotRadius]
  constructor
  · rw [key, hmax, Option.map_some']
    unfold radiusScaleFor
    rw [scaleSqrt_domain_left]
  · rw [key, hmax, Option.map_some']
    unfold radiusScaleFor
    rw [scaleSqrt_domain_right _ _ _ hMr]

/-- Witness for C4: with one station A, 50 unfiltered self-trips give max
traffic 100 and radii 0 and 20; with a filter at minute 700 over 25
self-trips the max traffic is 50 and the radii are 2 and 25. -/
theorem updateScatterPlotRadius_domain_range_witness :
    (updateScatterPlotRadius [stA] (List.replicate 50 tripAA) (-1) 0 =
        some 0 ∧
      updateScatterPlotRadius [stA] (List.replicate 50 tripAA) (-1) 100 =
        some 20) ∧
    (updateScatterPlotRadius [stA] (List.replicate 25 tripAA) 700 0 =
        some 2 ∧
      updateScatterPlotRadius [stA] (List.replicate 25 tripAA) 700 50 =
        some 25) := by
  constructor
  · have h := updateScatterPlotRadius_domain_range [stA]
      (List.replicate 50 tripAA) (-1) 100 (by decide) (by decide)
    simpa using h
  · have h := updateScatterPlotRadius_domain_range [stA]
      (List.replicate 25 tripAA) 700 50 (by decide) (by decide)
    simpa using h
